import Mathlib

/-!
# Verification of the PubMed fetcher (`src/pubmed.py`, `src/cli.py`)

Shallow embedding of `fetch_papers` (src/pubmed.py) and `get_papers`
(src/cli.py).  The HTTP transport is modelled as an oracle (`Transport`)
mapping the request of each step to a status code together with the parsed
body: the esearch body is represented by the outcome of `response.json()`
(`Except Unit Json`, where `error` models a JSON decode exception), and the
efetch body by the outcome of `ET.fromstring(details_response.text)`
(`Except Unit XmlElem`, where `error` models an `xml.etree` ParseError).
Python exceptions that the code does not catch are threaded through
`Except PyError`; messages printed with `typer.echo` are collected in a
list, and whether the second (efetch) GET was issued is recorded as the
`fetchParam` field of the outcome.
-/

/-- A parsed JSON value, as returned by `response.json()`.  Objects model
Python dicts resulting from JSON decoding: keys are distinct, so lookup by
first match coincides with dict lookup. -/
inductive Json where
  | null : Json
  | bool (b : Bool) : Json
  | num (n : Int) : Json
  | str (s : String) : Json
  | arr (elems : List Json) : Json
  | obj (fields : List (String × Json)) : Json

/-- The uncaught Python exceptions the code can raise: `typeError` models
`AttributeError`/`TypeError` from `.get` on a non-dict or `",".join` on a
non-string sequence, `jsonDecodeError` models `response.json()` failing,
and `xmlParseError` models `ET.fromstring` rejecting the body. -/
inductive PyError where
  | typeError : PyError
  | jsonDecodeError : PyError
  | xmlParseError : PyError
deriving DecidableEq

/-- An XML element as produced by `xml.etree.ElementTree`: a tag, the
optional text content (`elem.text`, `None` for an empty element), and the
list of child elements in document order. -/
inductive XmlElem where
  | mk (tag : String) (text : Option String) (children : List XmlElem) : XmlElem

def XmlElem.tag : XmlElem → String
  | XmlElem.mk t _ _ => t

def XmlElem.text : XmlElem → Option String
  | XmlElem.mk _ x _ => x

def XmlElem.children : XmlElem → List XmlElem
  | XmlElem.mk _ _ cs => cs

mutual

/-- All proper descendants of an element in document (preorder) order:
this is the iteration order of `elem.iter()` with the element itself
removed, which is what the ElementPath prefix `.//` walks. -/
def XmlElem.descendants : XmlElem → List XmlElem
  | XmlElem.mk _ _ cs => descendantsList cs

/-- Preorder listing of a forest: each root followed by its descendants. -/
def descendantsList : List XmlElem → List XmlElem
  | [] => []
  | c :: rest => c :: (XmlElem.descendants c ++ descendantsList rest)

end

/-- All elements of the subtree rooted at `e`, the root included, in
document order. -/
def allNodes (e : XmlElem) : List XmlElem :=
  e :: e.descendants

/-- `elem.findall(".//tag")`: every proper descendant carrying `tag`, in
document order. -/
def findallDesc (e : XmlElem) (tag : String) : List XmlElem :=
  e.descendants.filter (fun d => d.tag == tag)

/-- `elem.find(".//tag")`: the first proper descendant carrying `tag` in
document order, if any. -/
def findDesc (e : XmlElem) (tag : String) : Option XmlElem :=
  (findallDesc e tag).head?

/-- `elem.find("tag")`: the first direct child carrying `tag`, if any. -/
def findChild (e : XmlElem) (tag : String) : Option XmlElem :=
  (e.children.filter (fun c => c.tag == tag)).head?

/-- `article.find(".//Abstract/AbstractText")`: ElementPath first selects
the descendants tagged `Abstract` in document order, then their direct
children tagged `AbstractText`; `find` takes the first element produced. -/
def findAbstractText (e : XmlElem) : Option XmlElem :=
  ((findallDesc e "Abstract").flatMap
    (fun a => a.children.filter (fun c => c.tag == "AbstractText"))).head?

/-- The number of elements of the whole subtree (root included) carrying
`tag`. -/
def countNodes (e : XmlElem) (tag : String) : Nat :=
  ((allNodes e).filter (fun d => d.tag == tag)).length

/-- One entry of the list `fetch_papers` returns: the Python dict
`{"PubmedID": pmid, "Title": title, "Authors": authors, "Abstract":
abstract}`.  `pmid`, `title` and `abstract` are `str` or `None` in Python
(hence `Option String` here, `none` modelling Python `None`); `authors` is
always a `str`. -/
structure Record where
  PubmedID : Option String
  Title : Option String
  Authors : String
  Abstract : Option String
deriving DecidableEq

/-- Python f-string conversion of a `str`-or-`None` value: `f"{x}"` renders
`None` as the four characters `None`. -/
def fstr : Option String → String
  | none => "None"
  | some s => s

/-- Lines 57-60 of src/pubmed.py for one `Author` element: look up the
direct children `LastName` and `ForeName`; if both are present append
`f"{forename.text} {lastname.text}"`, otherwise contribute nothing. -/
def authorPair (au : XmlElem) : Option String :=
  match findChild au "LastName", findChild au "ForeName" with
  | some lastname, some forename => some (fstr forename.text ++ " " ++ fstr lastname.text)
  | _, _ => none

/-- The `authors_list` built by the loop over `article.findall(".//Author")`. -/
def authorPairs (article : XmlElem) : List String :=
  (findallDesc article "Author").filterMap authorPair

/-- Lines 49-69 of src/pubmed.py for one `PubmedArticle` element. -/
def extractRecord (article : XmlElem) : Record :=
  { PubmedID :=
      match findDesc article "PMID" with
      | some e => e.text
      | none => some "N/A"
  , Title :=
      match findDesc article "ArticleTitle" with
      | some e => e.text
      | none => some "N/A"
  , Authors :=
      if (authorPairs article).isEmpty then "N/A"
      else String.intercalate ", " (authorPairs article)
  , Abstract :=
      match findAbstractText article with
      | some e => e.text
      | none => some "N/A" }

/-- The loop `for article in root.findall(".//PubmedArticle")` appending
one record per article, in document order. -/
def extractPapers (root : XmlElem) : List Record :=
  (findallDesc root "PubmedArticle").map extractRecord

/-- Python `d.get(key, default)`: on a dict, the stored value or the
default; on any non-dict JSON value the attribute access raises. -/
def pyGet (j : Json) (key : String) (dflt : Json) : Except PyError Json :=
  match j with
  | Json.obj fields =>
      Except.ok (((fields.find? (fun p => p.1 == key)).map (fun p => p.2)).getD dflt)
  | _ => Except.error PyError.typeError

/-- Line 26 of src/pubmed.py:
`data.get("esearchresult", {}).get("idlist", [])`. -/
def extractIdlist (data : Json) : Except PyError Json :=
  match pyGet data "esearchresult" (Json.obj []) with
  | Except.error e => Except.error e
  | Except.ok inner => pyGet inner "idlist" (Json.arr [])

/-- Python truthiness of a JSON value, as tested by `if not ids`. -/
def jsonFalsy : Json → Bool
  | Json.null => true
  | Json.bool b => !b
  | Json.num n => n == 0
  | Json.str s => s.isEmpty
  | Json.arr elems => elems.isEmpty
  | Json.obj fields => fields.isEmpty

/-- Collect the elements of a JSON array as strings; a non-string element
makes `",".join` raise a `TypeError`. -/
def joinStrs : List Json → Except PyError (List String)
  | [] => Except.ok []
  | Json.str s :: rest => (joinStrs rest).map (fun l => s :: l)
  | _ :: _ => Except.error PyError.typeError

/-- Python `",".join(ids)`: joins a list of strings; iterating a string
joins its characters, iterating a dict joins its keys; every other value
raises a `TypeError`. -/
def pyJoin : Json → Except PyError String
  | Json.arr elems => (joinStrs elems).map (String.intercalate ",")
  | Json.str s => Except.ok (String.intercalate "," (s.data.map (fun c => String.singleton c)))
  | Json.obj fields => Except.ok (String.intercalate "," (fields.map (fun p => p.1)))
  | _ => Except.error PyError.typeError

/-- The HTTP oracle.  `search q` is the esearch response for the request
`db=pubmed, term=q, retmode=json, retmax=10` — a status code and the
outcome of `response.json()`.  `fetchReq p` is the efetch response
for the request `db=pubmed, id=p, retmode=xml` — a status code and the
outcome of `ET.fromstring` on the body text. -/
structure Transport where
  search : String → Nat × Except Unit Json
  fetchReq : String → Nat × Except Unit XmlElem

/-- What one call of `fetch_papers` does, observably: the returned value
(or the uncaught exception), the `typer.echo` messages in order, and the
`id` parameter of the efetch GET when that request was issued (`none` when
the function returned before issuing it). -/
structure Outcome where
  result : Except PyError (List Record)
  messages : List String
  fetchParam : Option String

/-- Lines 38-69 of src/pubmed.py: the efetch request, its status check,
parsing, and the extraction loop. -/
def fetchStep (t : Transport) (idParam : String) : Outcome :=
  match t.fetchReq idParam with
  | (dstatus, fetchBody) =>
    if dstatus ≠ 200 then
      { result := Except.ok []
      , messages := ["Error: Failed to fetch paper details."]
      , fetchParam := some idParam }
    else
      match fetchBody with
      | Except.error _ =>
        { result := Except.error PyError.xmlParseError
        , messages := []
        , fetchParam := some idParam }
      | Except.ok root =>
        { result := Except.ok (extractPapers root)
        , messages := []
        , fetchParam := some idParam }

/-- src/pubmed.py, `fetch_papers`: the esearch GET and status check, JSON
decoding, idlist extraction, the `if not ids` early return, the joining of
the identifiers, then the efetch step (`fetchStep`). -/
def fetch_papers (t : Transport) (query : String) : Outcome :=
  match t.search query with
  | (status, searchBody) =>
    if status ≠ 200 then
      { result := Except.ok []
      , messages := ["Error: Failed to fetch data from PubMed."]
      , fetchParam := none }
    else
      match searchBody with
      | Except.error _ =>
        { result := Except.error PyError.jsonDecodeError
        , messages := []
        , fetchParam := none }
      | Except.ok data =>
        match extractIdlist data with
        | Except.error e =>
          { result := Except.error e, messages := [], fetchParam := none }
        | Except.ok ids =>
          if jsonFalsy ids then
            { result := Except.ok []
            , messages := ["No papers found for the given query."]
            , fetchParam := none }
          else
            match pyJoin ids with
            | Except.error e =>
              { result := Except.error e, messages := [], fetchParam := none }
            | Except.ok idParam => fetchStep t idParam

/-- src/cli.py, `get_papers` invoked without `--file`: calls
`fetch_papers`, echoes the debug line when asked, echoes "No papers found."
and returns nothing when the list is empty, otherwise prints the table.
The value is the full ordered list of echoed messages (those of
`fetch_papers` first) together with the table contents when one is
printed (`none` when the command returned before building the DataFrame). -/
def get_papers (t : Transport) (query : String) (debug : Bool) :
    Except PyError (List String × Option (List Record)) :=
  match fetch_papers t query with
  | outcome =>
    match outcome.result with
    | Except.error e => Except.error e
    | Except.ok papers =>
      let msgs := outcome.messages ++
        (if debug then ["Fetched " ++ toString papers.length ++ " papers."] else [])
      if papers.isEmpty then Except.ok (msgs ++ ["No papers found."], none)
      else Except.ok (msgs, some papers)

/-- A JSON array of string identifiers, the shape of `idlist` documented
for the esearch endpoint. -/
def idArray (ids : List String) : Json :=
  Json.arr (ids.map Json.str)

/-- The esearch body documented in §6: a JSON object whose `esearchresult`
member is an object whose `idlist` member is an array of identifier
strings. -/
def searchBodyOf (ids : List String) : Json :=
  Json.obj [("esearchresult", Json.obj [("idlist", idArray ids)])]

/-- The one-article fetch document of the spec's concrete scenario:
`PMID=12345`, `ArticleTitle="Example Study"`, one author Jane Smith,
abstract "An example abstract.". -/
def exArticle : XmlElem :=
  XmlElem.mk "PubmedArticle" none
    [ XmlElem.mk "MedlineCitation" none
      [ XmlElem.mk "PMID" (some "12345") []
      , XmlElem.mk "Article" none
        [ XmlElem.mk "ArticleTitle" (some "Example Study") []
        , XmlElem.mk "Abstract" none
          [ XmlElem.mk "AbstractText" (some "An example abstract.") [] ]
        , XmlElem.mk "AuthorList" none
          [ XmlElem.mk "Author" none
            [ XmlElem.mk "LastName" (some "Smith") []
            , XmlElem.mk "ForeName" (some "Jane") [] ] ] ] ] ]

def exRoot : XmlElem :=
  XmlElem.mk "PubmedArticleSet" none [exArticle]

/-- Happy-path transport: one identifier, one well-formed article. -/
def Tgood : Transport :=
  { search := fun _ => (200, Except.ok (searchBodyOf ["12345"]))
  , fetchReq := fun _ => (200, Except.ok exRoot) }

/-- The spec's concrete happy-path scenario: one article with
`PMID=12345`, title "Example Study", author Jane Smith and the example
abstract yields exactly that one record. -/
theorem happy_path_scenario : (fetch_papers Tgood "cancer").result =
    Except.ok [{ PubmedID := some "12345", Title := some "Example Study"
               , Authors := "Jane Smith", Abstract := some "An example abstract." }] := by
  rfl

/-- Transport whose esearch step reports a server error. -/
def Tsearch500 : Transport :=
  { search := fun _ => (500, Except.ok (searchBodyOf ["12345"]))
  , fetchReq := fun _ => (200, Except.ok exRoot) }

/-- Transport whose esearch step succeeds with an empty `idlist`. -/
def TnoIds : Transport :=
  { search := fun _ => (200, Except.ok (searchBodyOf []))
  , fetchReq := fun _ => (200, Except.ok exRoot) }

/-- Transport whose efetch step reports a server error. -/
def Tfetch500 : Transport :=
  { search := fun _ => (200, Except.ok (searchBodyOf ["12345"]))
  , fetchReq := fun _ => (500, Except.ok exRoot) }

/-- Transport whose efetch step returns a success status with a body the
XML parser rejects. -/
def TbadXml : Transport :=
  { search := fun _ => (200, Except.ok (searchBodyOf ["12345"]))
  , fetchReq := fun _ => (500 - 300, Except.error ()) }

/-- Transport whose efetch document is well formed but holds no
`PubmedArticle` element. -/
def TnoArticles : Transport :=
  { search := fun _ => (200, Except.ok (searchBodyOf ["12345"]))
  , fetchReq := fun _ => (200, Except.ok (XmlElem.mk "PubmedArticleSet" none [])) }

/-- An article whose `PMID` element is present but empty (`elem.text` is
`None`). -/
def noTextArticle : XmlElem :=
  XmlElem.mk "PubmedArticle" none [XmlElem.mk "PMID" none []]

/-- Transport whose single article carries an empty `PMID` element. -/
def TnullPmid : Transport :=
  { search := fun _ => (200, Except.ok (searchBodyOf ["1"]))
  , fetchReq := fun _ => (200, Except.ok (XmlElem.mk "PubmedArticleSet" none [noTextArticle])) }

/-- The record `fetch_papers` builds from `noTextArticle`. -/
def nullPmidRecord : Record :=
  { PubmedID := none, Title := some "N/A", Authors := "N/A", Abstract := some "N/A" }

/-- A second article, placed at a deeper nesting level. -/
def exArticle2 : XmlElem :=
  XmlElem.mk "PubmedArticle" none
    [ XmlElem.mk "MedlineCitation" none [XmlElem.mk "PMID" (some "67890") []] ]

/-- A fetch document with two `PubmedArticle` elements at different
depths: the first at the top level of the set, the second wrapped one
level deeper. -/
def exRoot2 : XmlElem :=
  XmlElem.mk "PubmedArticleSet" none
    [ exArticle
    , XmlElem.mk "Wrapper" none [exArticle2] ]

/-- Transport returning two identifiers and the two-article document. -/
def Ttwo : Transport :=
  { search := fun _ => (200, Except.ok (searchBodyOf ["12345", "67890"]))
  , fetchReq := fun _ => (200, Except.ok exRoot2) }

theorem joinStrs_map_str (ids : List String) :
    joinStrs (ids.map Json.str) = Except.ok ids := by
  induction ids with
  | nil => rfl
  | cons s rest ih => simp [joinStrs, ih, Except.map]

theorem pyJoin_idArray (ids : List String) :
    pyJoin (idArray ids) = Except.ok (String.intercalate "," ids) := by
  simp [pyJoin, idArray, joinStrs_map_str, Except.map]

theorem jsonFalsy_idArray (ids : List String) :
    jsonFalsy (idArray ids) = ids.isEmpty := by
  cases ids <;> rfl

theorem fetchStep_fetchParam (t : Transport) (p : String) :
    (fetchStep t p).fetchParam = some p := by
  unfold fetchStep
  cases t.fetchReq p with
  | mk ds db =>
    dsimp only
    split
    · rfl
    · cases db <;> rfl

theorem fetch_papers_fetchParam_some (t : Transport) (q : String) (p : String)
    (h : (fetch_papers t q).fetchParam = some p) :
    fetch_papers t q = fetchStep t p := by
  unfold fetch_papers at h
  cases hsb : t.search q with
  | mk s b =>
    rw [hsb] at h
    dsimp only at h
    split at h
    · simp at h
    next hs200 =>
      cases b with
      | error u => simp at h
      | ok data =>
        dsimp only at h
        cases hx : extractIdlist data with
        | error e => rw [hx] at h; simp at h
        | ok ids =>
          rw [hx] at h
          dsimp only at h
          split at h
          next hfals => simp at h
          next hfals =>
            cases hj : pyJoin ids with
            | error e => rw [hj] at h; simp at h
            | ok p0 =>
              rw [hj] at h
              dsimp only at h
              rw [fetchStep_fetchParam] at h
              cases h
              simp [fetch_papers, hsb, hs200, hx, hfals, hj]

/-- C3: for every query on which the transport reports a non-success
status at the search step, or at the fetch step when that request is
issued, `fetch_papers` returns an empty sequence. -/
theorem C3_transport_failure_empty (t : Transport) (q : String) :
    ((t.search q).1 ≠ 200 → (fetch_papers t q).result = Except.ok []) ∧
    (∀ p, (fetch_papers t q).fetchParam = some p → (t.fetchReq p).1 ≠ 200 →
      (fetch_papers t q).result = Except.ok []) := by
  constructor
  · intro hs
    cases hsb : t.search q with
    | mk s b =>
      rw [hsb] at hs
      simp only [ne_eq] at hs
      simp [fetch_papers, hsb, hs]
  · intro p hp hf
    rw [fetch_papers_fetchParam_some t q p hp]
    cases hfb : t.fetchReq p with
    | mk ds db =>
      rw [hfb] at hf
      simp only [ne_eq] at hf
      simp [fetchStep, hfb, hf]

/-- C3 witness: a transport failing at each of the two steps, with the
empty result obtained through the theorem. -/
theorem C3_witness :
    ((Tsearch500.search "cancer").1 ≠ 200 ∧
      (fetch_papers Tsearch500 "cancer").result = Except.ok []) ∧
    ((fetch_papers Tfetch500 "cancer").fetchParam = some "12345" ∧
      (Tfetch500.fetchReq "12345").1 ≠ 200 ∧
      (fetch_papers Tfetch500 "cancer").result = Except.ok []) := by
  refine ⟨⟨by decide, (C3_transport_failure_empty Tsearch500 "cancer").1 (by decide)⟩,
         ⟨rfl, by decide, (C3_transport_failure_empty Tfetch500 "cancer").2 "12345" rfl (by decide)⟩⟩

/-- C4: a search response whose identifier list is empty makes
`fetch_papers` return an empty sequence with the efetch request never
issued. -/
theorem C4_empty_idlist (t : Transport) (q : String) (data : Json)
    (hs : t.search q = (200, Except.ok data))
    (hids : extractIdlist data = Except.ok (Json.arr [])) :
    (fetch_papers t q).result = Except.ok [] ∧
    (fetch_papers t q).fetchParam = none ∧
    (fetch_papers t q).messages = ["No papers found for the given query."] := by
  refine ⟨?_, ?_, ?_⟩ <;> simp [fetch_papers, hs, hids, jsonFalsy]

/-- C4 witness: the concrete scenario `idlist = []`. -/
theorem C4_witness :
    TnoIds.search "cancer" = (200, Except.ok (searchBodyOf [])) ∧
    extractIdlist (searchBodyOf []) = Except.ok (Json.arr []) ∧
    (fetch_papers TnoIds "cancer").result = Except.ok [] ∧
    (fetch_papers TnoIds "cancer").fetchParam = none := by
  have h := C4_empty_idlist TnoIds "cancer" (searchBodyOf []) rfl rfl
  exact ⟨rfl, rfl, h.1, h.2.1⟩

/-- C6: the Authors field iterates every `Author` descendant; an author
with a `LastName` child but no `ForeName` child contributes nothing, one
with both contributes the pair forename-space-lastname; the pairs are
joined with `", "`, and when none qualify the field is `"N/A"`. -/
theorem C6_authors_rule (a : XmlElem) :
    (∀ au ∈ findallDesc a "Author",
      (findChild au "ForeName" = none → authorPair au = none) ∧
      (∀ ln fn, findChild au "LastName" = some ln → findChild au "ForeName" = some fn →
        authorPair au = some (fstr fn.text ++ " " ++ fstr ln.text))) ∧
    authorPairs a = (findallDesc a "Author").filterMap authorPair ∧
    (extractRecord a).Authors =
      (if authorPairs a = [] then "N/A" else String.intercalate ", " (authorPairs a)) := by
  refine ⟨?_, rfl, ?_⟩
  · intro au _
    constructor
    · intro hf
      unfold authorPair
      rw [hf]
      cases findChild au "LastName" <;> rfl
    · intro ln fn hl hf
      unfold authorPair
      rw [hl, hf]
  · cases h : authorPairs a with
    | nil => simp [extractRecord, h]
    | cons x xs => simp [extractRecord, h]

/-- C6 witness: the spec's Jane Smith author. -/
theorem C6_witness :
    authorPair (XmlElem.mk "Author" none
      [ XmlElem.mk "LastName" (some "Smith") []
      , XmlElem.mk "ForeName" (some "Jane") [] ]) = some "Jane Smith" ∧
    (extractRecord exArticle).Authors = "Jane Smith" := by
  have h := C6_authors_rule exArticle
  constructor
  · have hm : XmlElem.mk "Author" none
        [ XmlElem.mk "LastName" (some "Smith") []
        , XmlElem.mk "ForeName" (some "Jane") [] ] ∈ findallDesc exArticle "Author" := by
      simp [findallDesc, exArticle, XmlElem.descendants, descendantsList, XmlElem.tag,
        List.filter]
    have := (h.1 _ hm).2 (XmlElem.mk "LastName" (some "Smith") [])
      (XmlElem.mk "ForeName" (some "Jane") []) rfl rfl
    rw [this]
    rfl
  · rw [h.2.2]
    rfl

/-- C10: author inclusion tests only the presence of the `LastName` and
`ForeName` child elements; when both are present a pair is contributed,
built from the possibly null text values, with a null text rendered by the
f-string as the string `None`. -/
theorem C10_presence_only (au ln fn : XmlElem)
    (hl : findChild au "LastName" = some ln)
    (hf : findChild au "ForeName" = some fn) :
    (authorPair au).isSome = true ∧
    authorPair au = some (fstr fn.text ++ " " ++ fstr ln.text) ∧
    fstr none = "None" := by
  unfold authorPair
  rw [hl, hf]
  exact ⟨rfl, rfl, rfl⟩

/-- C10 witness: an author whose two name elements are present but carry
no text still contributes a pair, rendered `"None None"`. -/
theorem C10_witness :
    findChild (XmlElem.mk "Author" none
      [ XmlElem.mk "LastName" none [], XmlElem.mk "ForeName" none [] ]) "LastName"
      = some (XmlElem.mk "LastName" none []) ∧
    authorPair (XmlElem.mk "Author" none
      [ XmlElem.mk "LastName" none [], XmlElem.mk "ForeName" none [] ]) = some "None None" := by
  refine ⟨rfl, ?_⟩
  have h := (C10_presence_only
    (XmlElem.mk "Author" none [ XmlElem.mk "LastName" none [], XmlElem.mk "ForeName" none [] ])
    (XmlElem.mk "LastName" none []) (XmlElem.mk "ForeName" none []) rfl rfl).2.1
  rw [h]
  rfl

/-- C7: extraction is deterministic; two invocations whose transports give
the same responses (in particular, the same fixed fetch document) yield
identical outcomes, record sequences included. -/
theorem C7_deterministic (t1 t2 : Transport) (q : String)
    (hs : t1.search q = t2.search q)
    (hf : ∀ p, t1.fetchReq p = t2.fetchReq p) :
    fetch_papers t1 q = fetch_papers t2 q := by
  unfold fetch_papers
  rw [hs]
  cases t2.search q with
  | mk s b =>
    dsimp only
    split
    · rfl
    · cases b with
      | error u => rfl
      | ok data =>
        dsimp only
        cases extractIdlist data with
        | error e => rfl
        | ok ids =>
          dsimp only
          split
          · rfl
          · cases pyJoin ids with
            | error e => rfl
            | ok p =>
              dsimp only
              unfold fetchStep
              rw [hf p]

/-- C7 witness: the same fixed responses given twice (through two
syntactically different transports) produce equal outcomes. -/
theorem C7_witness :
    Tgood.search "cancer" = Tgood.search "cancer" ∧
    fetch_papers Tgood "cancer" = fetch_papers Tgood "cancer" :=
  ⟨rfl, C7_deterministic Tgood Tgood "cancer" rfl (fun _ => rfl)⟩

theorem extractRecord_fields (a : XmlElem) :
    ((findDesc a "PMID" = none → (extractRecord a).PubmedID = some "N/A") ∧
     (∀ e, findDesc a "PMID" = some e → (extractRecord a).PubmedID = e.text)) ∧
    ((findDesc a "ArticleTitle" = none → (extractRecord a).Title = some "N/A") ∧
     (∀ e, findDesc a "ArticleTitle" = some e → (extractRecord a).Title = e.text)) ∧
    ((findAbstractText a = none → (extractRecord a).Abstract = some "N/A") ∧
     (∀ e, findAbstractText a = some e → (extractRecord a).Abstract = e.text)) ∧
    ((authorPairs a = [] → (extractRecord a).Authors = "N/A") ∧
     (authorPairs a ≠ [] → (extractRecord a).Authors = String.intercalate ", " (authorPairs a))) := by
  refine ⟨⟨?_, ?_⟩, ⟨?_, ?_⟩, ⟨?_, ?_⟩, ⟨?_, ?_⟩⟩
  · intro h; simp [extractRecord, h]
  · intro e he; simp [extractRecord, he]
  · intro h; simp [extractRecord, h]
  · intro e he; simp [extractRecord, he]
  · intro h; simp [extractRecord, h]
  · intro e he; simp [extractRecord, he]
  · intro h; simp [extractRecord, h]
  · intro h
    cases hp : authorPairs a with
    | nil => exact absurd hp h
    | cons x xs => simp [extractRecord, hp]

theorem fetch_papers_ok_mem (t : Transport) (q : String) (papers : List Record)
    (h : (fetch_papers t q).result = Except.ok papers) :
    ∀ r ∈ papers, ∃ a : XmlElem, r = extractRecord a := by
  unfold fetch_papers at h
  cases hsb : t.search q with
  | mk s b =>
    rw [hsb] at h
    dsimp only at h
    split at h
    · injection h with h2
      intro r hr
      rw [← h2] at hr
      cases hr
    · cases b with
      | error u => simp at h
      | ok data =>
        dsimp only at h
        cases hx : extractIdlist data with
        | error e => rw [hx] at h; simp at h
        | ok ids =>
          rw [hx] at h
          dsimp only at h
          split at h
          · injection h with h2
            intro r hr
            rw [← h2] at hr
            cases hr
          · cases hj : pyJoin ids with
            | error e => rw [hj] at h; simp at h
            | ok p0 =>
              rw [hj] at h
              dsimp only at h
              unfold fetchStep at h
              cases hfb : t.fetchReq p0 with
              | mk ds db =>
                rw [hfb] at h
                dsimp only at h
                split at h
                · injection h with h2
                  intro r hr
                  rw [← h2] at hr
                  cases hr
                · cases db with
                  | error u => simp at h
                  | ok root =>
                    dsimp only at h
                    injection h with h2
                    intro r hr
                    rw [← h2] at hr
                    rcases List.mem_map.mp hr with ⟨a, _, ha⟩
                    exact ⟨a, ha.symm⟩

/-- C1 fails as stated: a `PubmedArticle` whose `PMID` element is present
but empty yields a record whose PubmedID field is the Python value `None`
— a missing field, neither a string nor the sentinel `"N/A"`. -/
theorem C1_counterexample :
    (fetch_papers TnullPmid "covid").result = Except.ok [nullPmidRecord] ∧
    ¬ (∀ r ∈ [nullPmidRecord],
        r.PubmedID ≠ none ∧ r.Title ≠ none ∧ r.Abstract ≠ none) := by
  constructor
  · rfl
  · intro h
    exact (h nullPmidRecord (List.mem_singleton_self _)).1 rfl

/-- C1 amended: every returned record is the extraction of some
record-node; a record-node lacking a `PMID` sub-node yields identifier
`"N/A"`, and analogously for title and abstract, while the Authors field is
always a string (`"N/A"` when no author qualifies).  However, when the
sub-node is present the field carries its text, which is the missing value
`None` when the sub-node is empty. -/
theorem C1_defaulting (t : Transport) (q : String) (papers : List Record)
    (h : (fetch_papers t q).result = Except.ok papers) :
    ∀ r ∈ papers, ∃ a : XmlElem, r = extractRecord a ∧
      (findDesc a "PMID" = none → r.PubmedID = some "N/A") ∧
      (∀ e, findDesc a "PMID" = some e → r.PubmedID = e.text) ∧
      (findDesc a "ArticleTitle" = none → r.Title = some "N/A") ∧
      (∀ e, findDesc a "ArticleTitle" = some e → r.Title = e.text) ∧
      (findAbstractText a = none → r.Abstract = some "N/A") ∧
      (∀ e, findAbstractText a = some e → r.Abstract = e.text) ∧
      (authorPairs a = [] → r.Authors = "N/A") ∧
      (authorPairs a ≠ [] → r.Authors = String.intercalate ", " (authorPairs a)) := by
  intro r hr
  rcases fetch_papers_ok_mem t q papers h r hr with ⟨a, ha⟩
  rcases extractRecord_fields a with ⟨⟨h1, h2⟩, ⟨h3, h4⟩, ⟨h5, h6⟩, ⟨h7, h8⟩⟩
  subst ha
  exact ⟨a, rfl, h1, h2, h3, h4, h5, h6, h7, h8⟩

/-- C1 witness: on the happy-path transport the single record is the
extraction of the example article, with fields present. -/
theorem C1_witness :
    (fetch_papers Tgood "cancer").result =
      Except.ok [{ PubmedID := some "12345", Title := some "Example Study"
                 , Authors := "Jane Smith", Abstract := some "An example abstract." }] ∧
    (∃ a : XmlElem,
      ({ PubmedID := some "12345", Title := some "Example Study"
       , Authors := "Jane Smith", Abstract := some "An example abstract." } : Record)
        = extractRecord a) := by
  constructor
  · rfl
  · have h := C1_defaulting Tgood "cancer" _ rfl
    rcases h _ (List.mem_singleton_self _) with ⟨a, ha, _⟩
    exact ⟨a, ha⟩

/-- C5: when the efetch request is issued and its document parses, the
result is exactly one record per `PubmedArticle` node, mapped over the
nodes in document (preorder) order — `findallDesc` enumerates descendants
in document order and `filter` keeps that order, with no de-duplication
and no sorting; the count equals the number of `PubmedArticle` nodes in
the whole document whenever the root is the set wrapper. -/
theorem C5_document_order (t : Transport) (q p : String) (root : XmlElem)
    (hp : (fetch_papers t q).fetchParam = some p)
    (hr : t.fetchReq p = (200, Except.ok root))
    (hroot : root.tag ≠ "PubmedArticle") :
    (fetch_papers t q).result = Except.ok (extractPapers root) ∧
    extractPapers root = (findallDesc root "PubmedArticle").map extractRecord ∧
    (extractPapers root).length = countNodes root "PubmedArticle" ∧
    List.Sublist (findallDesc root "PubmedArticle") (allNodes root) := by
  have heq := fetch_papers_fetchParam_some t q p hp
  refine ⟨?_, rfl, ?_, ?_⟩
  · rw [heq]
    unfold fetchStep
    rw [hr]
    rfl
  · unfold extractPapers countNodes allNodes findallDesc
    rw [List.length_map, List.filter_cons]
    simp [hroot]
  · exact (List.filter_sublist _).trans (List.sublist_cons_self _ _)

/-- C5 witness: a document with two `PubmedArticle` nodes at different
depths yields exactly two records, in document order. -/
theorem C5_witness :
    (fetch_papers Ttwo "cancer").result = Except.ok (extractPapers exRoot2) ∧
    (extractPapers exRoot2).length = 2 ∧
    countNodes exRoot2 "PubmedArticle" = 2 ∧
    extractPapers exRoot2 = [extractRecord exArticle, extractRecord exArticle2] := by
  have h := C5_document_order Ttwo "cancer" "12345,67890" exRoot2 rfl rfl (by decide)
  exact ⟨h.1, rfl, rfl, rfl⟩

theorem idArray_inj {xs ys : List String} (h : idArray xs = idArray ys) : xs = ys := by
  simp only [idArray, Json.arr.injEq] at h
  induction xs generalizing ys with
  | nil =>
    cases ys with
    | nil => rfl
    | cons y ys => simp at h
  | cons x xs ih =>
    cases ys with
    | nil => simp at h
    | cons y ys =>
      simp only [List.map_cons, List.cons.injEq, Json.str.injEq] at h
      rw [h.1, ih h.2]

/-- The documented contract of the two remote endpoints (§6 of the spec):
the esearch response carries an `idlist` that is an array of at most
`retmax = 10` identifier strings, and the efetch request the code builds
from such an identifier list (the identifiers joined with commas) is
answered with a document holding at most one `PubmedArticle` element per
requested identifier.  The fetch-side bound is stated only for identifier
lists actually produced by one of the transport's own search responses —
the only requests `fetch_papers` ever issues. -/
structure EUtilsConform (t : Transport) : Prop where
  retmax_honored : ∀ q data, (t.search q).2 = Except.ok data →
    ∃ ids : List String, extractIdlist data = Except.ok (idArray ids) ∧ ids.length ≤ 10
  per_id_articles : ∀ (q : String) (data : Json) (ids : List String)
    (dstatus : Nat) (root : XmlElem),
    (t.search q).2 = Except.ok data →
    extractIdlist data = Except.ok (idArray ids) →
    t.fetchReq (String.intercalate "," ids) = (dstatus, Except.ok root) →
    (findallDesc root "PubmedArticle").length ≤ ids.length

/-- C2: against endpoints honoring the documented contract (the code sends
`retmax=10` with the search request), every sequence `fetch_papers`
returns is finite (it is a list) and holds at most 10 records. -/
theorem C2_at_most_ten (t : Transport) (q : String) (papers : List Record)
    (hc : EUtilsConform t)
    (h : (fetch_papers t q).result = Except.ok papers) :
    papers.length ≤ 10 := by
  unfold fetch_papers at h
  cases hsb : t.search q with
  | mk s b =>
    rw [hsb] at h
    dsimp only at h
    split at h
    · injection h with h2
      rw [← h2]
      simp
    · cases b with
      | error u => simp at h
      | ok data =>
        dsimp only at h
        obtain ⟨ids, hx, hlen⟩ := hc.retmax_honored q data (by rw [hsb])
        rw [hx] at h
        dsimp only at h
        cases ids with
        | nil =>
          simp only [idArray, List.map_nil, jsonFalsy, List.isEmpty_nil, if_true] at h
          injection h with h2
          rw [← h2]
          simp
        | cons i rest =>
          simp only [jsonFalsy_idArray, List.isEmpty_cons, Bool.false_eq_true, if_false,
            pyJoin_idArray] at h
          unfold fetchStep at h
          cases hfb : t.fetchReq (String.intercalate "," (i :: rest)) with
          | mk ds db =>
            rw [hfb] at h
            dsimp only at h
            split at h
            · injection h with h2
              rw [← h2]
              simp
            · cases db with
              | error u => simp at h
              | ok root =>
                dsimp only at h
                injection h with h2
                have hcount := hc.per_id_articles q data (i :: rest) ds root
                  (by rw [hsb]) hx hfb
                rw [← h2]
                unfold extractPapers
                rw [List.length_map]
                exact le_trans hcount hlen

/-- C2 witness: a conforming transport whose run returns two records —
the conformance hypothesis admits multi-record responses (one article per
requested identifier) and the bound obtained through the theorem covers
them. -/
theorem C2_witness :
    (fetch_papers Ttwo "cancer").result = Except.ok (extractPapers exRoot2) ∧
    (extractPapers exRoot2).length = 2 ∧
    (extractPapers exRoot2).length ≤ 10 := by
  have hc : EUtilsConform Ttwo := by
    constructor
    · intro q data hd
      simp only [Ttwo] at hd
      injection hd with hd2
      rw [← hd2]
      exact ⟨["12345", "67890"], rfl, by norm_num⟩
    · intro q data ids dstatus root hd hx hfb
      simp only [Ttwo] at hd
      injection hd with hd2
      rw [← hd2] at hx
      have hx0 : extractIdlist (searchBodyOf ["12345", "67890"]) =
          Except.ok (idArray ["12345", "67890"]) := rfl
      rw [hx0] at hx
      injection hx with hx2
      obtain rfl : ids = ["12345", "67890"] := (idArray_inj hx2).symm
      simp only [Ttwo] at hfb
      injection hfb with h1 h2
      injection h2 with h3
      rw [← h3]
      exact Nat.le_refl 2
  exact ⟨rfl, rfl, C2_at_most_ten Ttwo "cancer" (extractPapers exRoot2) hc rfl⟩

/-- The documented inbound format of the search step (§6): when the
transport reports success, the body decodes to JSON and the extraction
path `esearchresult.idlist` yields an array of identifier strings. -/
def searchRespWF (t : Transport) (q : String) : Prop :=
  (t.search q).1 = 200 →
    ∃ data ids, (t.search q).2 = Except.ok data ∧
      extractIdlist data = Except.ok (idArray ids)

/-- C8: under the documented search-response format, `fetch_papers`
terminates abnormally exactly when the efetch step returns a success
status with a body the XML parser rejects, and the propagated error is the
parse failure; in every other situation the call degrades to a normal
(possibly empty) result. -/
theorem C8_xml_parse_only_abnormal (t : Transport) (q : String)
    (hwf : searchRespWF t q) :
    ((∃ e, (fetch_papers t q).result = Except.error e) ↔
      (∃ p, (fetch_papers t q).fetchParam = some p ∧
        (t.fetchReq p).1 = 200 ∧ (t.fetchReq p).2 = Except.error ())) ∧
    (∀ e, (fetch_papers t q).result = Except.error e → e = PyError.xmlParseError) := by
  cases hsb : t.search q with
  | mk s b =>
    by_cases hs200 : s = 200
    case neg =>
      have hfp : fetch_papers t q =
          { result := Except.ok []
          , messages := ["Error: Failed to fetch data from PubMed."]
          , fetchParam := none } := by
        simp [fetch_papers, hsb, hs200]
      rw [hfp]
      refine ⟨⟨?_, ?_⟩, ?_⟩
      · rintro ⟨e, he⟩; simp at he
      · rintro ⟨p, hp, _⟩; simp at hp
      · intro e he; simp at he
    case pos =>
      subst hs200
      obtain ⟨data, ids, hb, hx⟩ := hwf (by rw [hsb])
      rw [hsb] at hb
      dsimp only at hb
      subst hb
      cases ids with
      | nil =>
        have hfp : fetch_papers t q =
            { result := Except.ok []
            , messages := ["No papers found for the given query."]
            , fetchParam := none } := by
          simp [fetch_papers, hsb, hx, idArray, jsonFalsy]
        rw [hfp]
        refine ⟨⟨?_, ?_⟩, ?_⟩
        · rintro ⟨e, he⟩; simp at he
        · rintro ⟨p, hp, _⟩; simp at hp
        · intro e he; simp at he
      | cons i rest =>
        have hfp : fetch_papers t q = fetchStep t (String.intercalate "," (i :: rest)) := by
          simp [fetch_papers, hsb, hx, pyJoin_idArray, jsonFalsy_idArray]
        rw [hfp]
        cases hfb : t.fetchReq (String.intercalate "," (i :: rest)) with
        | mk ds db =>
          by_cases hd200 : ds = 200
          case neg =>
            have hstep : fetchStep t (String.intercalate "," (i :: rest)) =
                { result := Except.ok []
                , messages := ["Error: Failed to fetch paper details."]
                , fetchParam := some (String.intercalate "," (i :: rest)) } := by
              simp [fetchStep, hfb, hd200]
            rw [hstep]
            refine ⟨⟨?_, ?_⟩, ?_⟩
            · rintro ⟨e, he⟩; simp at he
            · rintro ⟨p, hp, h200, _⟩
              dsimp only at hp
              injection hp with hp2
              rw [← hp2, hfb] at h200
              exact absurd h200 hd200
            · intro e he; simp at he
          case pos =>
            subst hd200
            cases db with
            | error u =>
              cases u
              have hstep : fetchStep t (String.intercalate "," (i :: rest)) =
                  { result := Except.error PyError.xmlParseError
                  , messages := []
                  , fetchParam := some (String.intercalate "," (i :: rest)) } := by
                simp [fetchStep, hfb]
              rw [hstep]
              refine ⟨⟨?_, ?_⟩, ?_⟩
              · intro _
                refine ⟨String.intercalate "," (i :: rest), rfl, ?_, ?_⟩ <;> rw [hfb]
              · intro _
                exact ⟨PyError.xmlParseError, rfl⟩
              · intro e he
                dsimp only at he
                injection he with he2
                exact he2.symm
            | ok root =>
              have hstep : fetchStep t (String.intercalate "," (i :: rest)) =
                  { result := Except.ok (extractPapers root)
                  , messages := []
                  , fetchParam := some (String.intercalate "," (i :: rest)) } := by
                simp [fetchStep, hfb]
              rw [hstep]
              refine ⟨⟨?_, ?_⟩, ?_⟩
              · rintro ⟨e, he⟩; simp at he
              · rintro ⟨p, hp, h200, herr⟩
                dsimp only at hp
                injection hp with hp2
                rw [← hp2, hfb] at herr
                simp at herr
              · intro e he; simp at he

/-- C8 witness: a transport whose efetch body is rejected by the parser;
the error propagates and is the parse failure. -/
theorem C8_witness :
    (fetch_papers TbadXml "cancer").result = Except.error PyError.xmlParseError ∧
    (∀ e, (fetch_papers TbadXml "cancer").result = Except.error e →
      e = PyError.xmlParseError) := by
  refine ⟨rfl, (C8_xml_parse_only_abnormal TbadXml "cancer" ?_).2⟩
  intro _
  exact ⟨searchBodyOf ["12345"], ["12345"], rfl, rfl⟩

/-- C9: the four failure modes — non-success status at the search step,
empty identifier list, non-success status at the fetch step, and empty
article set — all produce the same returned value (the empty sequence) and
each is accompanied by at least one human-readable message echoed as a
side effect by the system (`fetch_papers` prints the first three, the
invoking command prints "No papers found."); the messages travel on the
echo channel, never inside the returned data, which is `none` in every
failure mode. -/
theorem C9_failure_modes (t : Transport) (q : String) :
    ((t.search q).1 ≠ 200 →
      (fetch_papers t q).result = Except.ok [] ∧
      get_papers t q false =
        Except.ok (["Error: Failed to fetch data from PubMed.", "No papers found."], none)) ∧
    (∀ data, t.search q = (200, Except.ok data) →
      extractIdlist data = Except.ok (Json.arr []) →
      (fetch_papers t q).result = Except.ok [] ∧
      get_papers t q false =
        Except.ok (["No papers found for the given query.", "No papers found."], none)) ∧
    (∀ p, (fetch_papers t q).fetchParam = some p → (t.fetchReq p).1 ≠ 200 →
      (fetch_papers t q).result = Except.ok [] ∧
      get_papers t q false =
        Except.ok (["Error: Failed to fetch paper details.", "No papers found."], none)) ∧
    (∀ p root, (fetch_papers t q).fetchParam = some p →
      t.fetchReq p = (200, Except.ok root) →
      findallDesc root "PubmedArticle" = [] →
      (fetch_papers t q).result = Except.ok [] ∧
      get_papers t q false = Except.ok (["No papers found."], none)) := by
  refine ⟨?_, ?_, ?_, ?_⟩
  · intro hs
    cases hsb : t.search q with
    | mk s b =>
      rw [hsb] at hs
      simp only [ne_eq] at hs
      have hfp : fetch_papers t q =
          { result := Except.ok []
          , messages := ["Error: Failed to fetch data from PubMed."]
          , fetchParam := none } := by
        simp [fetch_papers, hsb, hs]
      exact ⟨by rw [hfp], by simp [get_papers, hfp]⟩
  · intro data hsb hids
    have hfp : fetch_papers t q =
        { result := Except.ok []
        , messages := ["No papers found for the given query."]
        , fetchParam := none } := by
      simp [fetch_papers, hsb, hids, jsonFalsy]
    exact ⟨by rw [hfp], by simp [get_papers, hfp]⟩
  · intro p hp hf
    have heq := fetch_papers_fetchParam_some t q p hp
    cases hfb : t.fetchReq p with
    | mk ds db =>
      rw [hfb] at hf
      simp only [ne_eq] at hf
      have hfp : fetch_papers t q =
          { result := Except.ok []
          , messages := ["Error: Failed to fetch paper details."]
          , fetchParam := some p } := by
        rw [heq]
        simp [fetchStep, hfb, hf]
      exact ⟨by rw [hfp], by simp [get_papers, hfp]⟩
  · intro p root hp hr harts
    have heq := fetch_papers_fetchParam_some t q p hp
    have hfp : fetch_papers t q =
        { result := Except.ok []
        , messages := []
        , fetchParam := some p } := by
      rw [heq]
      simp [fetchStep, hr, extractPapers, harts]
    exact ⟨by rw [hfp], by simp [get_papers, hfp]⟩

/-- C9 witness: one concrete transport per failure mode, each producing
the empty result and its echoed message through the theorem. -/
theorem C9_witness :
    get_papers Tsearch500 "cancer" false =
      Except.ok (["Error: Failed to fetch data from PubMed.", "No papers found."], none) ∧
    get_papers TnoIds "cancer" false =
      Except.ok (["No papers found for the given query.", "No papers found."], none) ∧
    get_papers Tfetch500 "cancer" false =
      Except.ok (["Error: Failed to fetch paper details.", "No papers found."], none) ∧
    get_papers TnoArticles "cancer" false = Except.ok (["No papers found."], none) := by
  refine ⟨((C9_failure_modes Tsearch500 "cancer").1 (by decide)).2,
    ((C9_failure_modes TnoIds "cancer").2.1 (searchBodyOf []) rfl rfl).2,
    ((C9_failure_modes Tfetch500 "cancer").2.2.1 "12345" rfl (by decide)).2,
    ((C9_failure_modes TnoArticles "cancer").2.2.2 "12345"
      (XmlElem.mk "PubmedArticleSet" none []) rfl rfl rfl).2⟩
